import Mathlib

/-!
Shallow embedding of the resilient interaction engine of the
job-application automation repository (files src/automation_clean.py and
src/automation.py), together with proofs of the behavioural claims about
the selector-chain resolver, the wait coordinator, the click-strategy
ladder, the filter sequencer, the job-discovery loop and the
application-modal state machine.

The browser driver is modelled as an environment record: every call the
code makes to the driver (wait for an element to become visible, click,
check enablement) is represented by a Boolean or numeric field of the
environment, and the Python control flow is translated function by
function. Line numbers in doc comments refer to the source files.
-/

namespace LinkedinAuto

/-! ## Definitions -/

/-! ### Locator Chain Resolver

Embeds first_locator, automation_clean.py lines 424-433 and the
identical automation.py lines 39-47: a for-loop over the selector list
that awaits a visibility wait on each selector, returns the locator on
the first wait that succeeds, skips to the next selector when the wait
raises, and raises RuntimeError after the loop when every selector
failed.

A LocatorAttempt records, for one selector of the chain, what the driver
visibility wait does: whether it succeeds, and how many milliseconds it
runs before returning or raising. A failing wait runs for the full
per-candidate timeout; a succeeding wait returns as soon as the element
is visible, hence within the timeout. -/

structure LocatorAttempt where
  sel : String
  success : Bool
  cost : Nat
deriving Repr, DecidableEq

/-- Result index of first_locator: index of the first selector whose
visibility wait succeeds, none when every selector fails and the
RuntimeError is raised. Direct translation of the for-loop with the
try-return and except-continue arms. -/
def first_locator : List LocatorAttempt → Option Nat
  | [] => none
  | a :: rest =>
    if a.success then some 0
    else (first_locator rest).map (· + 1)

/-- Number of selectors the loop actually attempts: every selector up to
and including the first success, or the whole chain when all fail. -/
def triedCount : List LocatorAttempt → Nat
  | [] => 0
  | a :: rest => if a.success then 1 else 1 + triedCount rest

/-- Total wall-clock time spent inside first_locator: each attempted
selector contributes the duration of its wait; selectors after the first
success are never attempted. -/
def resolverElapsed : List LocatorAttempt → Nat
  | [] => 0
  | a :: rest => if a.success then a.cost else a.cost + resolverElapsed rest

/-- A chain is well-timed for a per-candidate timeout when each failing
wait costs exactly the timeout and each succeeding wait costs at most
the timeout (the semantics of the driver wait with that timeout). -/
def wellTimed (chain : List LocatorAttempt) (timeout : Nat) : Prop :=
  ∀ a ∈ chain, (a.success = false → a.cost = timeout) ∧
    (a.success = true → a.cost ≤ timeout)

instance (chain : List LocatorAttempt) (timeout : Nat) :
    Decidable (wellTimed chain timeout) := by
  unfold wellTimed; infer_instance

/-- Scenario-A style chain: first selector misses, second and third hit. -/
def chainA : List LocatorAttempt :=
  [⟨"css=button.primary", false, 6000⟩,
   ⟨"text=Submit", true, 300⟩,
   ⟨"xpath=(//button)[3]", true, 100⟩]

/-- Chain in which every candidate fails, each wait consuming the full
default 6000 ms per-candidate timeout. -/
def chainAllFail : List LocatorAttempt :=
  [⟨"css=.modal", false, 6000⟩, ⟨"css=.dialog", false, 6000⟩,
   ⟨"css=.popup", false, 6000⟩]

/-! ### Wait Coordinator

Embeds wait_network_idle of automation_clean.py lines 18-26 (try a
networkidle load-state wait with the given timeout; on exception try a
domcontentloaded wait with a fixed 5000 ms timeout; on exception pass)
and wait_network_idle of automation.py lines 23-24 (a bare networkidle
load-state wait with the driver default timeout and no exception
handler). -/

structure WaitEnv where
  /-- Whether the page reaches the networkidle load state within the
  given number of milliseconds. -/
  networkIdleWithin : Nat → Bool
  /-- Whether the page reaches the domcontentloaded load state within
  the given number of milliseconds. -/
  domWithin : Nat → Bool

/-- One driver wait-for-load-state call: succeeds or raises a timeout. -/
def waitForLoadState (ok : Bool) : Except String Unit :=
  if ok then .ok () else .error "Timeout"

/-- Trace entry: one load-state wait the coordinator attempted. -/
inductive WaitAttempt where
  | networkidle (timeout : Nat)
  | domcontentloaded (timeout : Nat)
deriving Repr, DecidableEq

/-- wait_network_idle of automation_clean.py lines 18-26: result of the
call plus the trace of the load-state waits it attempted, in order. -/
def wait_network_idle (env : WaitEnv) (timeout : Nat) :
    Except String Unit × List WaitAttempt :=
  match waitForLoadState (env.networkIdleWithin timeout) with
  | .ok _ => (.ok (), [.networkidle timeout])
  | .error _ =>
    match waitForLoadState (env.domWithin 5000) with
    | .ok _ => (.ok (), [.networkidle timeout, .domcontentloaded 5000])
    | .error _ => (.ok (), [.networkidle timeout, .domcontentloaded 5000])

/-- wait_network_idle of automation.py lines 23-24: a single networkidle
wait with the driver default timeout of 30000 ms and no handler, so a
timeout propagates to the caller. -/
def wait_network_idle_plain (env : WaitEnv) : Except String Unit :=
  waitForLoadState (env.networkIdleWithin 30000)

/-- Page that never reaches networkidle nor domcontentloaded (for
example a page with a polling widget on a stalled connection). -/
def envNeverSettles : WaitEnv := ⟨fun _ => false, fun _ => false⟩

/-! ### Click Strategy Executor

Embeds the click_strategies ladder of click_modal_apply_and_wait,
automation.py lines 443-461. Each entry of the source list is a pair of
a display name and a thunk; the loop runs the thunks in order and stops
at the first one that does not raise. The second entry, labelled scroll
and click, calls only scroll_into_view_if_needed and dispatches no click
(line 446), which the model records in the dispatchesClick field. -/

structure ClickEnv where
  normalClickThrows : Bool
  scrollThrows : Bool
  forceClickThrows : Bool
  jsClickThrows : Bool
  dblClickThrows : Bool
deriving Repr, DecidableEq

/-- One ladder entry: display name, whether running it dispatches a
click on the element, and whether it raises in this environment. -/
structure ClickStrategy where
  name : String
  dispatchesClick : Bool
  throws : Bool
deriving Repr, DecidableEq

/-- The fixed ladder of automation.py lines 444-450, in source order.
Entry 2 (index 1) only scrolls the button into view; all other entries
dispatch a click of some kind. -/
def click_strategies (env : ClickEnv) : List ClickStrategy :=
  [⟨"normal click", true, env.normalClickThrows⟩,
   ⟨"scroll and click", false, env.scrollThrows⟩,
   ⟨"force click", true, env.forceClickThrows⟩,
   ⟨"JS click", true, env.jsClickThrows⟩,
   ⟨"double click", true, env.dblClickThrows⟩]

/-- The for-loop of automation.py lines 452-461: run the strategies in
order, stop at the first that does not raise and report it; none when
all raise (clicked stays False). -/
def runLadder : List ClickStrategy → Option ClickStrategy
  | [] => none
  | s :: rest => if s.throws then runLadder rest else some s

/-- Outcome of the whole ladder for an environment. -/
def clickOutcome (env : ClickEnv) : Option ClickStrategy :=
  runLadder (click_strategies env)

/-- Environment of an apply button that is obscured, so a plain click
raises, while scrolling it into view succeeds. -/
def envObscuredButton : ClickEnv := ⟨true, false, false, false, false⟩

/-! ### Filter verification

Embeds assert_chip_applied, automation.py lines 538-550. The source
computes a deadline of now plus the timeout and opens a while-loop on
that deadline; the body tries a visibility wait of 1000 ms on each of
the two chip selectors in turn (returning on success) and then raises
RuntimeError. The raise sits inside the while body, so the body runs at
most once. visibleFrom models the page: the instant, in milliseconds
from the start of the call, at which a chip indicator first becomes
visible (none when it never does). -/

/-- One driver visibility wait starting at the given instant with the
given timeout: succeeds exactly when the element becomes visible before
the window closes. -/
def waitVisibleWindow (visibleFrom : Option Nat) (start timeout : Nat) : Bool :=
  match visibleFrom with
  | some v => v ≤ start + timeout
  | none => false

/-- assert_chip_applied of automation.py lines 538-550. The guard is the
while-loop entry test (0 < timeout); the two branches are the two
selector waits of the first pass, 1000 ms each; the error is the raise
at the end of the body; when the guard fails the function falls through
and returns normally without checking anything. -/
def assert_chip_applied (visibleFrom : Option Nat) (timeout : Nat) :
    Except String Unit :=
  if 0 < timeout then
    if waitVisibleWindow visibleFrom 0 1000 then .ok ()
    else if waitVisibleWindow visibleFrom 1000 1000 then .ok ()
    else .error "Filter not confirmed applied"
  else .ok ()

/-- Left-nav filter sequencer of automation.py lines 552-706, at the
granularity of its two chip-verified sections: the Department section
(whose click_modal_apply_and_wait verifies the Product Management chip
via assert_chip_applied, lines 479-483, catching the verification error)
and the Location section that follows it (lines 676-691). Each section
body is wrapped in its own try-except-pass, so both always run; the
returned pair holds each verification outcome. -/
def apply_left_nav_filters (deptChipVisibleFrom locChipVisibleFrom : Option Nat) :
    Bool × Bool :=
  ((assert_chip_applied deptChipVisibleFrom 8000).isOk,
   (assert_chip_applied locChipVisibleFrom 8000).isOk)

/-! ### Filter Sequencer (automation_clean)

Embeds apply_filters, automation_clean.py lines 623-765: Step 1 (Date
Posted, lines 645-731) and Step 2 (Easy Apply, lines 733-762) are two
sibling try-blocks run in sequence, each with its own except handler
that only prints, so Step 2 runs whatever happens in Step 1. -/

structure FilterEnv where
  /-- Some Date-posted selector matches (lines 649-666). -/
  dateFilterFound : Bool
  /-- The click on the Date-posted button raises (caught line 730). -/
  dateClickRaises : Bool
  /-- A Past-24-hours option selector matches (lines 674-693). -/
  past24Found : Bool
  /-- A Show-results selector matches and its click lands (699-723). -/
  showResultsFound : Bool
  /-- An Easy-Apply selector matches (lines 736-752). -/
  easyApplyFound : Bool
  /-- The click on the Easy-Apply button raises (caught line 761). -/
  easyClickRaises : Bool
deriving Repr, DecidableEq

/-- Outcome of one filter step: whether the sequencer ran it at all and
whether it completed its confirm click. -/
structure StepOutcome where
  attempted : Bool
  succeeded : Bool
deriving Repr, DecidableEq

/-- Step 1 of apply_filters (Date Posted, lines 645-731). Failure modes:
the opener is not found, a click raises (absorbed by the step-level
except), or the Show-results confirm stage does not land. -/
def dateStep (env : FilterEnv) : StepOutcome :=
  if env.dateFilterFound then
    if env.dateClickRaises then ⟨true, false⟩
    else ⟨true, env.showResultsFound⟩
  else ⟨true, false⟩

/-- Step 2 of apply_filters (Easy Apply, lines 733-762). -/
def easyStep (env : FilterEnv) : StepOutcome :=
  if env.easyApplyFound then
    if env.easyClickRaises then ⟨true, false⟩ else ⟨true, true⟩
  else ⟨true, false⟩

/-- apply_filters of automation_clean.py lines 623-765: the two steps in
source order. -/
def apply_filters (env : FilterEnv) : StepOutcome × StepOutcome :=
  (dateStep env, easyStep env)

/-! ### Application Modal State Machine

Embeds handle_easy_apply_modal, automation_clean.py lines 35-170. The
function wraps everything in one try-except: the modal-detection loop
(lines 41-51), the fixed 30 second human pause (lines 59-70), the
stepping while-loop with max_steps 10 (lines 72-153), the close-modal
cleanup (line 156) and the return True (line 164); the except arm closes
the modal and returns False (lines 166-170). -/

/-- What the button probes of one stepping iteration find: whether a
Review, Submit, or Next selector yields a visible enabled button
(lines 85-146). -/
structure ButtonsAvail where
  review : Bool
  submit : Bool
  next : Bool
deriving Repr, DecidableEq

/-- Driver environment of one modal session. avail lists, per stepping
iteration, which buttons its probes find (iterations beyond the list
find none). fatalAt marks a stepping iteration during which a driver
call raises outside every inner handler; preFatal marks such an
exception before the stepping loop. -/
structure ModalEnv where
  modalFound : Bool
  avail : List ButtonsAvail
  preFatal : Bool
  fatalAt : Option Nat
deriving Repr, DecidableEq

/-- Buttons found at iteration k. -/
def availAt (env : ModalEnv) (k : Nat) : ButtonsAvail :=
  env.avail.getD k ⟨false, false, false⟩

/-- How the stepping while-loop of lines 76-153 ends. -/
inductive StepExit where
  /-- The step counter reached max_steps, the while-test failed. -/
  | maxedOut
  /-- A Submit button was clicked and the loop broke (line 129). -/
  | submitted
  /-- No Review, Submit or Next button was found (break, line 153). -/
  | noButtons
  /-- A driver exception escaped to the outer except handler. -/
  | fatalErr
deriving Repr, DecidableEq

/-- max_steps of line 73. -/
def maxSteps : Nat := 10

/-- The stepping while-loop, lines 76-153. fuel is max_steps minus the
step counter (Review and Next clicks increment step, lines 104 and 143);
k counts executed loop-body iterations. Priority inside one iteration is
Review, then Submit, then Next, then break (lines 85-153). -/
def steppingLoop (env : ModalEnv) : Nat → Nat → Nat × StepExit
  | 0, k => (k, .maxedOut)
  | fuel + 1, k =>
    if env.fatalAt = some k then (k, .fatalErr)
    else
      let a := availAt env k
      if a.review then steppingLoop env fuel (k + 1)
      else if a.submit then (k + 1, .submitted)
      else if a.next then steppingLoop env fuel (k + 1)
      else (k + 1, .noButtons)

/-- Return value of handle_easy_apply_modal, lines 35-170: True when no
modal appears (instant application, line 57), True after the stepping
loop and cleanup complete (line 164), False only from the except arm
(line 170). -/
def handle_easy_apply_modal (env : ModalEnv) : Bool :=
  if env.modalFound = false then true
  else if env.preFatal then false
  else
    match (steppingLoop env maxSteps 0).2 with
    | .fatalErr => false
    | _ => true

/-- Number of stepping-loop body iterations a modal session executes. -/
def steppingIterations (env : ModalEnv) : Nat :=
  if env.modalFound = false then 0
  else if env.preFatal then 0
  else (steppingLoop env maxSteps 0).1

/-- Abstract outcome of one modal session: the modal machinery ends
closed (cleanup ran, True returned) or failed (except arm, False). -/
inductive ModalOutcome where
  | closed
  | failed
deriving Repr, DecidableEq

/-- Outcome abstraction of handle_easy_apply_modal: both arms run
close_application_modal (lines 156 and 169) before returning. -/
def modalOutcome (env : ModalEnv) : ModalOutcome :=
  if handle_easy_apply_modal env then .closed else .failed

/-- Whether a driver exception escapes the modal processing into the
outer except handler of lines 166-170. -/
def escapesModal (env : ModalEnv) : Bool :=
  env.modalFound &&
    (env.preFatal || decide ((steppingLoop env maxSteps 0).2 = .fatalErr))

/-- Modal session in which no modal ever appears (lines 53-57). -/
def envNoModal : ModalEnv := ⟨false, [], false, none⟩

/-- Modal session whose first stepping iteration finds no Review, Submit
or Next button, so the loop exits at once without any Submit click. -/
def envNoButtons : ModalEnv := ⟨true, [], false, none⟩

/-! ### Job Discovery Loop

Embeds find_and_apply_to_first_job, automation_clean.py lines 768-939:
a for-loop over the first min(job_count, 10) job cards (line 785) that
extracts metadata defensively, opens the card, explicitly skips
already-applied detection (comment at line 837), looks for a visible
enabled apply button, checks its text for an apply keyword (line 902),
clicks it, runs handle_easy_apply_modal and returns the job record on
success; when the range is exhausted it returns the sentinel record of
line 939. -/

/-- Whether pat occurs at the start of s. -/
def leadsWith : List Char → List Char → Bool
  | [], _ => true
  | _ :: _, [] => false
  | a :: pat, b :: s => a == b && leadsWith pat s

/-- Whether pat occurs anywhere in s (the Python in operator). -/
def subOccurs (pat : List Char) : List Char → Bool
  | [] => pat.isEmpty
  | b :: s => leadsWith pat (b :: s) || subOccurs pat s

/-- The keyword check of line 902: any of easy apply, apply, quick apply
occurs in the lower-cased button text (the Python in operator over
button_text.lower()). -/
def isApplyText (s : String) : Bool :=
  let t := s.data.map Char.toLower
  subOccurs "easy apply".data t || subOccurs "apply".data t ||
    subOccurs "quick apply".data t

/-- The job_info record of lines 793-798 (link is extracted nowhere in
the loop and stays empty). -/
structure JobRecord where
  title : String
  company : String
  location : String
  link : String
deriving Repr, DecidableEq

/-- One job card together with what the driver reports about its detail
page: the defensively extracted metadata, whether the page shows an
already-applied indicator (which the code never consults, line 837),
whether some apply-button selector yields a visible enabled element
(lines 886-898), that buttons text, and the modal session its click
opens. -/
structure JobCandidate where
  title : String
  company : String
  location : String
  alreadyAppliedShown : Bool
  applyBtnFound : Bool
  applyBtnText : String
  modal : ModalEnv
deriving Repr, DecidableEq

/-- The record returned for a successfully applied candidate. -/
def candidateRecord (c : JobCandidate) : JobRecord :=
  ⟨c.title, c.company, c.location, ""⟩

/-- The sentinel no-job record of line 939. -/
def sentinelRecord : JobRecord := ⟨"No available jobs", "", "", ""⟩

/-- Whether the loop clicks apply on this candidate: a visible enabled
apply button was found, its text is non-empty (line 900) and contains an
apply keyword (line 902). -/
def eligibleApply (c : JobCandidate) : Bool :=
  c.applyBtnFound && !(c.applyBtnText == "") && isApplyText c.applyBtnText

/-- Whether the apply click on this candidate ends in success (line
915): the button is clicked and handle_easy_apply_modal returns True. -/
def appliesOk (c : JobCandidate) : Bool :=
  eligibleApply c && handle_easy_apply_modal c.modal

/-- The body of the discovery for-loop over an already-truncated card
list: return the record of the first candidate whose application
succeeds, otherwise fall through to the sentinel (line 939). -/
def tryJobs : List JobCandidate → JobRecord
  | [] => sentinelRecord
  | c :: rest => if appliesOk c then candidateRecord c else tryJobs rest

/-- The candidates the loop actually opens, in order: every candidate up
to and including the first success, within the truncated range. -/
def visitedJobs : List JobCandidate → List JobCandidate
  | [] => []
  | c :: rest => if appliesOk c then [c] else c :: visitedJobs rest

/-- find_and_apply_to_first_job of lines 768-939: the loop ranges over
the first min(job_count, 10) cards (line 785). -/
def find_and_apply_to_first_job (cands : List JobCandidate) : JobRecord :=
  tryJobs (cands.take 10)

/-- The candidates the run opens. -/
def visitedCandidates (cands : List JobCandidate) : List JobCandidate :=
  visitedJobs (cands.take 10)

/-- The candidates whose apply button the run clicks. -/
def applyClicks (cands : List JobCandidate) : List JobCandidate :=
  (visitedCandidates cands).filter eligibleApply

/-- Overwrite the already-applied indicator of a candidate. -/
def setAlready (b : Bool) (c : JobCandidate) : JobCandidate :=
  { c with alreadyAppliedShown := b }

/-- A candidate whose detail page carries an already-applied indicator
and still offers a visible enabled Easy Apply button; its modal session
is the instant, modal-less kind. -/
def cAlreadyApplied : JobCandidate :=
  ⟨"Product Manager", "Acme", "India", true, true, "Easy Apply", envNoModal⟩

/-- A candidate whose modal opens but whose stepping loop finds no
button at all, so no Submit is ever clicked. -/
def cNoSubmit : JobCandidate :=
  ⟨"Product Manager", "Globex", "India", false, true, "Easy Apply", envNoButtons⟩

/-! ## Theorems -/

/-! ### Helper lemmas -/

theorem first_locator_some_success (chain : List LocatorAttempt) (i : Nat)
    (h : first_locator chain = some i) :
    ∃ a, chain.get? i = some a ∧ a.success = true ∧
      ∀ j, j < i → ∀ b, chain.get? j = some b → b.success = false := by
  induction chain generalizing i with
  | nil => simp [first_locator] at h
  | cons a rest ih =>
    by_cases ha : a.success
    · simp [first_locator, ha] at h
      subst h
      exact ⟨a, rfl, ha, fun j hj b hb => absurd hj (Nat.not_lt_zero j)⟩
    · simp [first_locator, ha] at h
      obtain ⟨i', hi', rfl⟩ := h
      obtain ⟨b, hb, hbs, hprev⟩ := ih i' hi'
      refine ⟨b, by simpa using hb, hbs, ?_⟩
      intro j hj c hc
      cases j with
      | zero =>
        simp at hc
        simpa [hc] using (Bool.not_eq_true a.success).mp ha
      | succ j' =>
        exact hprev j' (Nat.lt_of_succ_lt_succ hj) c (by simpa using hc)

theorem first_locator_none_iff (chain : List LocatorAttempt) :
    first_locator chain = none ↔ ∀ a ∈ chain, a.success = false := by
  induction chain with
  | nil => simp [first_locator]
  | cons a rest ih =>
    by_cases ha : a.success
    · simp [first_locator, ha]
    · simp [first_locator, ha, ih, Bool.not_eq_true a.success |>.mp ha]

theorem resolverElapsed_le (chain : List LocatorAttempt) (timeout : Nat)
    (h : wellTimed chain timeout) :
    resolverElapsed chain ≤ chain.length * timeout := by
  induction chain with
  | nil => simp [resolverElapsed]
  | cons a rest ih =>
    have ha := h a (List.mem_cons_self a rest)
    have hrest : wellTimed rest timeout := fun b hb => h b (List.mem_cons_of_mem a hb)
    by_cases hs : a.success
    · have : a.cost ≤ timeout := ha.2 hs
      simp only [resolverElapsed, hs, if_pos rfl, List.length_cons]
      calc a.cost ≤ timeout := this
        _ ≤ (rest.length + 1) * timeout := Nat.le_mul_of_pos_left timeout (Nat.succ_pos _)
    · have hc : a.cost = timeout := ha.1 ((Bool.not_eq_true a.success).mp hs)
      simp only [resolverElapsed, hs, if_neg, List.length_cons]
      calc a.cost + resolverElapsed rest ≤ timeout + rest.length * timeout := by
            exact Nat.add_le_add (le_of_eq hc) (ih hrest)
        _ = (rest.length + 1) * timeout := by ring

theorem triedCount_all (chain : List LocatorAttempt)
    (h : first_locator chain = none) : triedCount chain = chain.length := by
  induction chain with
  | nil => simp [triedCount]
  | cons a rest ih =>
    by_cases hs : a.success
    · simp [first_locator, hs] at h
    · simp [first_locator, hs] at h
      simp [triedCount, hs, ih h]
      omega

/-! ### Claim theorems -/

/-- C1. For every selector chain given to first_locator, the resolver
returns the element of the first selector (by index) whose visibility
wait succeeds, never a later one (every earlier selector failed), and it
raises (returns none) if and only if all selectors of the chain fail
within their waits. -/
theorem first_locator_first_success_iff_none (chain : List LocatorAttempt) :
    (∀ i, first_locator chain = some i →
      ∃ a, chain.get? i = some a ∧ a.success = true ∧
        ∀ j, j < i → ∀ b, chain.get? j = some b → b.success = false) ∧
    (first_locator chain = none ↔ ∀ a ∈ chain, a.success = false) :=
  ⟨fun i h => first_locator_some_success chain i h, first_locator_none_iff chain⟩

/-- Witness for C1: on chainA the resolver returns index 1 (the first
hit), even though index 2 would also match, and the chain is not
all-failing. -/
theorem first_locator_first_success_iff_none_witness :
    (∃ a, chainA.get? 1 = some a ∧ a.success = true ∧
      ∀ j, j < 1 → ∀ b, chainA.get? j = some b → b.success = false) ∧
    ¬(first_locator chainA = none) :=
  ⟨(first_locator_first_success_iff_none chainA).1 1 (by decide),
   fun h => by
     have := (first_locator_first_success_iff_none chainA).2.mp h
     exact absurd (this ⟨"text=Submit", true, 300⟩ (by decide)) (by decide)⟩

/-- Counterexample for C2: first_locator enforces no total budget. With
per-candidate timeout 6000 ms and a total budget of 6000 ms, the
accumulated elapsed time already exceeds the budget after the first two
failing candidates, yet the resolver still attempts the third candidate
(triedCount is the full chain length, so no early abort) and its total
elapsed time of 18000 ms exceeds totalBudget plus one candidate timeout
(12000 ms). -/
theorem first_locator_no_budget_counterexample :
    wellTimed chainAllFail 6000 ∧
    6000 < resolverElapsed (chainAllFail.take 2) ∧
    triedCount chainAllFail = 3 ∧
    resolverElapsed chainAllFail = 18000 ∧
    ¬(resolverElapsed chainAllFail ≤ 6000 + 6000) := by
  refine ⟨?_, by decide, by decide, by decide, by decide⟩
  decide

/-- C2 amended. The resolver has no total budget and never aborts early:
when every candidate fails it tries the entire chain, and its elapsed
time is bounded only by the chain length times the per-candidate
timeout. -/
theorem resolver_elapsed_bound (chain : List LocatorAttempt) (timeout : Nat)
    (h : wellTimed chain timeout) :
    resolverElapsed chain ≤ chain.length * timeout ∧
    (first_locator chain = none → triedCount chain = chain.length) :=
  ⟨resolverElapsed_le chain timeout h, fun hn => triedCount_all chain hn⟩

/-- Witness for the amended C2 at the concrete all-failing chain. -/
theorem resolver_elapsed_bound_witness :
    wellTimed chainAllFail 6000 ∧
    resolverElapsed chainAllFail ≤ chainAllFail.length * 6000 ∧
    triedCount chainAllFail = chainAllFail.length :=
  ⟨by decide,
   (resolver_elapsed_bound chainAllFail 6000 (by decide)).1,
   (resolver_elapsed_bound chainAllFail 6000 (by decide)).2 (by decide)⟩

theorem tryJobs_eq_find (l : List JobCandidate) :
    tryJobs l = ((l.find? appliesOk).elim sentinelRecord candidateRecord) := by
  induction l with
  | nil => simp [tryJobs]
  | cons c rest ih =>
    by_cases h : appliesOk c
    · simp [tryJobs, h, List.find?_cons_of_pos _ h]
    · have h' : appliesOk c = false := by revert h; cases appliesOk c <;> simp
      simp [tryJobs, h', List.find?_cons_of_neg, ih]

theorem visitedJobs_length_le (l : List JobCandidate) :
    (visitedJobs l).length ≤ l.length := by
  induction l with
  | nil => simp [visitedJobs]
  | cons c rest ih =>
    by_cases h : appliesOk c
    · simp [visitedJobs, h]
    · simp [visitedJobs, h]; omega

theorem visitedJobs_one_success (l : List JobCandidate) :
    ((visitedJobs l).filter appliesOk).length ≤ 1 := by
  induction l with
  | nil => simp [visitedJobs]
  | cons c rest ih =>
    by_cases h : appliesOk c
    · simp [visitedJobs, h, List.filter]
    · have h' : appliesOk c = false := by revert h; cases appliesOk c <;> simp
      simpa [visitedJobs, h', List.filter] using ih

theorem visitedJobs_isTakePrefix (l : List JobCandidate) :
    ∃ k, visitedJobs l = l.take k := by
  induction l with
  | nil => exact ⟨0, rfl⟩
  | cons c rest ih =>
    by_cases h : appliesOk c
    · exact ⟨1, by simp [visitedJobs, h]⟩
    · obtain ⟨k, hk⟩ := ih
      exact ⟨k + 1, by simp [visitedJobs, h, hk]⟩

theorem eligibleApply_setAlready (b : Bool) (c : JobCandidate) :
    eligibleApply (setAlready b c) = eligibleApply c := rfl

theorem appliesOk_setAlready (b : Bool) (c : JobCandidate) :
    appliesOk (setAlready b c) = appliesOk c := rfl

theorem tryJobs_map_setAlready (b : Bool) (l : List JobCandidate) :
    tryJobs (l.map (setAlready b)) = tryJobs l := by
  induction l with
  | nil => rfl
  | cons c rest ih =>
    by_cases h : appliesOk c
    · have : appliesOk (setAlready b c) = true := by
        rw [appliesOk_setAlready]; exact h
      simp [tryJobs, h, this]
      rfl
    · have h' : appliesOk c = false := by revert h; cases appliesOk c <;> simp
      have : appliesOk (setAlready b c) = false := by
        rw [appliesOk_setAlready]; exact h'
      simp [tryJobs, h', this, ih]

theorem visitedFilter_map_setAlready (b : Bool) (l : List JobCandidate) :
    (visitedJobs (l.map (setAlready b))).filter eligibleApply =
      ((visitedJobs l).filter eligibleApply).map (setAlready b) := by
  induction l with
  | nil => rfl
  | cons c rest ih =>
    by_cases h : appliesOk c
    · have hs : appliesOk (setAlready b c) = true := by
        rw [appliesOk_setAlready]; exact h
      have he : eligibleApply c = true := by
        have := h
        unfold appliesOk at this
        exact (Bool.and_eq_true _ _).mp this |>.1
      have he' : eligibleApply (setAlready b c) = true := by
        rw [eligibleApply_setAlready]; exact he
      simp [visitedJobs, h, hs, List.filter, he, he']
    · have h' : appliesOk c = false := by revert h; cases appliesOk c <;> simp
      have hs : appliesOk (setAlready b c) = false := by
        rw [appliesOk_setAlready]; exact h'
      by_cases he : eligibleApply c = true
      · have he' : eligibleApply (setAlready b c) = true := by
          rw [eligibleApply_setAlready]; exact he
        simp [visitedJobs, h', hs, List.filter, he, he', ih]
      · have he0 : eligibleApply c = false := by
          revert he; cases eligibleApply c <;> simp
        have he' : eligibleApply (setAlready b c) = false := by
          rw [eligibleApply_setAlready]; exact he0
        simp [visitedJobs, h', hs, List.filter, he0, he', ih]

/-- C3. The Job Discovery Loop iterates over at most min(available, 10)
candidates, returns the record of the first candidate whose application
succeeds (so at most one candidate is applied per run), and on
exhausting the bounded range returns the sentinel no-job record instead
of failing. -/
theorem discovery_first_success_or_sentinel (cands : List JobCandidate) :
    find_and_apply_to_first_job cands =
      (((cands.take 10).find? appliesOk).elim sentinelRecord candidateRecord) ∧
    (visitedCandidates cands).length ≤ min cands.length 10 ∧
    ((visitedCandidates cands).filter appliesOk).length ≤ 1 := by
  refine ⟨tryJobs_eq_find (cands.take 10), ?_, visitedJobs_one_success (cands.take 10)⟩
  have h1 : (visitedCandidates cands).length ≤ (cands.take 10).length :=
    visitedJobs_length_le (cands.take 10)
  have h2 : (cands.take 10).length = min 10 cands.length := List.length_take 10 cands
  omega

/-- Counterexample for C4: the loop does not check already-applied
indicators (the source comment at line 837 says it skips that
detection). A candidate whose detail page shows an already-applied
indicator and still offers an Easy Apply button has that button clicked
and is returned as the applied job, instead of being skipped. -/
theorem already_applied_still_clicked_counterexample :
    cAlreadyApplied.alreadyAppliedShown = true ∧
    applyClicks [cAlreadyApplied] = [cAlreadyApplied] ∧
    find_and_apply_to_first_job [cAlreadyApplied] = candidateRecord cAlreadyApplied ∧
    find_and_apply_to_first_job [cAlreadyApplied] ≠ sentinelRecord := by
  refine ⟨rfl, by decide, by decide, by decide⟩

/-- C4 amended. The Job Discovery Loop performs no already-applied
check: the record it returns and the set of candidates whose apply
button it clicks are entirely independent of already-applied indicators
(so candidates carrying such an indicator are applied to like any
other), and the candidates it opens form a prefix of the first ten, so
no candidate is ever revisited or re-clicked. -/
theorem discovery_ignores_already_applied (cands : List JobCandidate) (b : Bool) :
    find_and_apply_to_first_job (cands.map (setAlready b)) =
      find_and_apply_to_first_job cands ∧
    applyClicks (cands.map (setAlready b)) = (applyClicks cands).map (setAlready b) ∧
    ∃ k, visitedCandidates cands = (cands.take 10).take k := by
  refine ⟨?_, ?_, visitedJobs_isTakePrefix (cands.take 10)⟩
  · unfold find_and_apply_to_first_job
    rw [← List.map_take, tryJobs_map_setAlready]
  · unfold applyClicks visitedCandidates
    rw [← List.map_take, visitedFilter_map_setAlready]

theorem steppingLoop_fst_le (env : ModalEnv) :
    ∀ fuel k, (steppingLoop env fuel k).1 ≤ k + fuel := by
  intro fuel
  induction fuel with
  | zero => intro k; simp [steppingLoop]
  | succ n ih =>
    intro k
    by_cases hf : env.fatalAt = some k
    · simp [steppingLoop, hf]
    · by_cases hr : (availAt env k).review = true
      · have := ih (k + 1)
        simp [steppingLoop, hf, hr]
        omega
      · have hr' : (availAt env k).review = false := by
          revert hr; cases (availAt env k).review <;> simp
        by_cases hs : (availAt env k).submit = true
        · simp [steppingLoop, hf, hr', hs]
        · have hs' : (availAt env k).submit = false := by
            revert hs; cases (availAt env k).submit <;> simp
          by_cases hn : (availAt env k).next = true
          · have := ih (k + 1)
            simp [steppingLoop, hf, hr', hs', hn]
            omega
          · have hn' : (availAt env k).next = false := by
              revert hn; cases (availAt env k).next <;> simp
            simp [steppingLoop, hf, hr', hs', hn']

theorem steppingLoop_no_fatal (env : ModalEnv) (h : env.fatalAt = none) :
    ∀ fuel k, (steppingLoop env fuel k).2 ≠ StepExit.fatalErr := by
  intro fuel
  induction fuel with
  | zero => intro k; simp [steppingLoop]
  | succ n ih =>
    intro k
    have hf : ¬(env.fatalAt = some k) := by simp [h]
    by_cases hr : (availAt env k).review = true
    · simpa [steppingLoop, hf, hr] using ih (k + 1)
    · have hr' : (availAt env k).review = false := by
        revert hr; cases (availAt env k).review <;> simp
      by_cases hs : (availAt env k).submit = true
      · simp [steppingLoop, hf, hr', hs]
      · have hs' : (availAt env k).submit = false := by
          revert hs; cases (availAt env k).submit <;> simp
        by_cases hn : (availAt env k).next = true
        · simpa [steppingLoop, hf, hr', hs', hn] using ih (k + 1)
        · have hn' : (availAt env k).next = false := by
            revert hn; cases (availAt env k).next <;> simp
          simp [steppingLoop, hf, hr', hs', hn']

/-- C5. The Application Modal State Machine executes at most maxSteps
(10) stepping-loop iterations for every sequence of button-availability
outcomes, and every session ends in the closed or the failed outcome:
the machine never stays in Stepping beyond the bound. -/
theorem modal_stepping_bounded (env : ModalEnv) :
    steppingIterations env ≤ maxSteps ∧
    (modalOutcome env = ModalOutcome.closed ∨ modalOutcome env = ModalOutcome.failed) := by
  constructor
  · unfold steppingIterations
    by_cases hm : env.modalFound = false
    · simp [hm, maxSteps]
    · by_cases hp : env.preFatal = true
      · simp [hm, hp, maxSteps]
      · simpa [hm, hp] using steppingLoop_fst_le env maxSteps 0
  · unfold modalOutcome
    by_cases h : handle_easy_apply_modal env = true
    · exact Or.inl (by simp [h])
    · exact Or.inr (by simp [h])

/-- Counterexample for C6: the wait_network_idle of automation.py (lines
23-24) is a bare networkidle wait with no fallback, so on a page that
never reaches network idle it raises instead of returning; the claimed
never-fails contract holds only for the automation_clean.py variant,
whose call on the same page succeeds. -/
theorem wait_network_idle_plain_fails_counterexample :
    wait_network_idle_plain envNeverSettles = Except.error "Timeout" ∧
    (wait_network_idle envNeverSettles 10000).1 = Except.ok () :=
  ⟨rfl, rfl⟩

/-- C6 amended. The automation_clean.py wait_network_idle never fails
for any page and timeout: it attempts the strict networkidle wait first;
exactly when that times out it falls back to a domcontentloaded wait
with the shorter fixed 5000 ms timeout; and it returns without raising
even when both time out. The automation.py variant of the same name,
however, performs only the strict wait and propagates its timeout. -/
theorem wait_network_idle_never_fails (env : WaitEnv) (timeout : Nat) :
    (wait_network_idle env timeout).1 = Except.ok () ∧
    (wait_network_idle env timeout).2 =
      (if env.networkIdleWithin timeout then [WaitAttempt.networkidle timeout]
       else [WaitAttempt.networkidle timeout, WaitAttempt.domcontentloaded 5000]) ∧
    (env.networkIdleWithin 30000 = false →
      wait_network_idle_plain env = Except.error "Timeout") := by
  refine ⟨?_, ?_, ?_⟩
  · cases hni : env.networkIdleWithin timeout <;>
      cases hd : env.domWithin 5000 <;>
      simp [wait_network_idle, waitForLoadState, hni, hd]
  · cases hni : env.networkIdleWithin timeout <;>
      cases hd : env.domWithin 5000 <;>
      simp [wait_network_idle, waitForLoadState, hni, hd]
  · intro h
    simp [wait_network_idle_plain, waitForLoadState, h]

/-- Witness for the amended C6 at the never-settling page. -/
theorem wait_network_idle_never_fails_witness :
    (wait_network_idle envNeverSettles 10000).1 = Except.ok () ∧
    wait_network_idle_plain envNeverSettles = Except.error "Timeout" :=
  ⟨(wait_network_idle_never_fails envNeverSettles 10000).1,
   (wait_network_idle_never_fails envNeverSettles 10000).2.2 rfl⟩

/-- C7 (code bug witness). On an apply button whose plain click raises
(for example because an overlay obscures it) while scrolling succeeds,
the ladder stops at its second entry, which is labelled scroll and click
but whose body only calls scroll_into_view_if_needed (automation.py line
446): the executor reports the click strategy as succeeded although no
click of any kind was dispatched, contradicting the scroll-into-view
THEN click reading of the ladder. -/
theorem click_ladder_scroll_only_bug :
    clickOutcome envObscuredButton =
      some ⟨"scroll and click", false, false⟩ ∧
    (clickOutcome envObscuredButton).map ClickStrategy.dispatchesClick =
      some false := by
  refine ⟨by decide, by decide⟩

/-- C8. A filter step failure is non-fatal. In apply_filters of
automation_clean.py the Easy Apply step is always attempted and its
outcome depends only on its own environment, not on anything the Date
Posted step did or failed to do; and in the chip-verified left-nav
sequencer of automation.py the outcome of the section following the
Department section is independent of the Department chip verification,
including when that verification times out. -/
theorem filter_step_failure_nonfatal :
    (∀ e1 e2 : FilterEnv, e1.easyApplyFound = e2.easyApplyFound →
      e1.easyClickRaises = e2.easyClickRaises →
      (apply_filters e1).2 = (apply_filters e2).2) ∧
    (∀ env : FilterEnv, (apply_filters env).2.attempted = true) ∧
    (∀ dv dv' lv : Option Nat,
      (apply_left_nav_filters dv lv).2 = (apply_left_nav_filters dv' lv).2) := by
  refine ⟨?_, ?_, ?_⟩
  · intro e1 e2 h1 h2
    simp [apply_filters, easyStep, h1, h2]
  · intro env
    obtain ⟨df, dr, pf, sr, ea, er⟩ := env
    cases ea <;> cases er <;> rfl
  · intro dv dv' lv
    rfl

/-- Witness for C8: a run in which the Date Posted step fails completely
has the same Easy Apply outcome as a run in which it succeeds, the Easy
Apply step is attempted in the failing run, and a Department chip that
never appears (verification timeout) leaves the following section
outcome unchanged. -/
theorem filter_step_failure_nonfatal_witness :
    (apply_filters ⟨false, false, false, false, true, false⟩).2 =
      (apply_filters ⟨true, false, true, true, true, false⟩).2 ∧
    (apply_filters ⟨false, false, false, false, true, false⟩).2.attempted = true ∧
    (apply_left_nav_filters none (some 0)).2 =
      (apply_left_nav_filters (some 500) (some 0)).2 :=
  ⟨filter_step_failure_nonfatal.1 _ _ rfl rfl,
   filter_step_failure_nonfatal.2.1 _,
   filter_step_failure_nonfatal.2.2 none (some 500) (some 0)⟩

/-- C9 (code bug witness). assert_chip_applied computes an 8000 ms
deadline but raises inside the while body, so it gives up after a single
pass over the two indicator selectors (about 2000 ms): on a chip that
becomes visible 3000 ms after the confirm click it reports failure, even
though the chip would have been seen well inside the remaining budget
(the window from 2000 ms to the 8000 ms deadline contains it). -/
theorem chip_verification_single_pass_bug :
    assert_chip_applied (some 3000) 8000 =
      Except.error "Filter not confirmed applied" ∧
    waitVisibleWindow (some 3000) 2000 6000 = true := by
  refine ⟨rfl, by decide⟩

/-- C10. handle_easy_apply_modal returns False exactly when a driver
exception escapes its modal processing into the outer handler; in every
other run it returns True, including when no modal ever appears and when
no fatal exception occurs at all (in particular when the stepping loop
exits without any Submit click), so the Job Discovery Loop records a
candidate whose modal closes without a Submit click as the applied job
of the run. -/
theorem modal_false_iff_exception :
    (∀ env : ModalEnv, handle_easy_apply_modal env = false ↔ escapesModal env = true) ∧
    (∀ env : ModalEnv, env.modalFound = false → handle_easy_apply_modal env = true) ∧
    (∀ env : ModalEnv, env.preFatal = false → env.fatalAt = none →
      handle_easy_apply_modal env = true) ∧
    (find_and_apply_to_first_job [cNoSubmit] = candidateRecord cNoSubmit ∧
      (steppingLoop cNoSubmit.modal maxSteps 0).2 = StepExit.noButtons) := by
  refine ⟨?_, ?_, ?_, by decide, by decide⟩
  · intro env
    unfold handle_easy_apply_modal escapesModal
    by_cases hm : env.modalFound = false
    · simp [hm]
    · have hm' : env.modalFound = true := by
        revert hm; cases env.modalFound <;> simp
      by_cases hp : env.preFatal = true
      · simp [hm', hp]
      · have hp' : env.preFatal = false := by
          revert hp; cases env.preFatal <;> simp
        cases hst : (steppingLoop env maxSteps 0).2 <;> simp [hm', hp', hst]
  · intro env h
    simp [handle_easy_apply_modal, h]
  · intro env hp hf
    unfold handle_easy_apply_modal
    by_cases hm : env.modalFound = false
    · simp [hm]
    · have hm' : env.modalFound = true := by
        revert hm; cases env.modalFound <;> simp
      have hne := steppingLoop_no_fatal env hf maxSteps 0
      cases hst : (steppingLoop env maxSteps 0).2
      · simp [hm', hp, hst]
      · simp [hm', hp, hst]
      · simp [hm', hp, hst]
      · exact absurd hst hne

/-- Witness for C10: the no-modal session and the no-buttons session
both return True, and the iff holds at a session whose human-pause phase
raises. -/
theorem modal_false_iff_exception_witness :
    handle_easy_apply_modal envNoModal = true ∧
    handle_easy_apply_modal envNoButtons = true ∧
    (handle_easy_apply_modal ⟨true, [], true, none⟩ = false ↔
      escapesModal ⟨true, [], true, none⟩ = true) :=
  ⟨modal_false_iff_exception.2.1 envNoModal rfl,
   modal_false_iff_exception.2.2.1 envNoButtons rfl rfl,
   modal_false_iff_exception.1 ⟨true, [], true, none⟩⟩

end LinkedinAuto
